import Mathlib

/-!
Verification of the Flask-Trello-Lite kanban application (src/app.py) via a
shallow embedding.  The four SQLAlchemy models become row structures, the
database becomes a `DBState` of row lists, and each Flask route handler
becomes a pure function from the acting user, the request parameters and the
state to a response and a successor state.  External collaborators that the
specification treats as given primitives (password hashing, form validation,
the storage engines commit) are modelled abstractly: hashing as an injective
tagging function, a possible storage-layer failure as a boolean `commitOk`
input, and the autoincrement primary key as one more than the current maximum.
-/

namespace Trello

/-- Embeds the SQLAlchemy `User` model (app.py lines 42-53): integer primary
key, unique username, unique email, password hash. -/
structure UserRow where
  id : Nat
  username : String
  email : String
  password_hash : String
deriving DecidableEq, Repr

/-- Embeds the `Board` model (app.py lines 55-60): title plus owning user
foreign key. -/
structure BoardRow where
  id : Nat
  title : String
  user_id : Nat
deriving DecidableEq, Repr

/-- Embeds the `List` model (app.py lines 63-69): title plus owning board
foreign key.  Named `ListRow` because `List` is taken in Lean. -/
structure ListRow where
  id : Nat
  title : String
  board_id : Nat
deriving DecidableEq, Repr

/-- Embeds the `Card` model (app.py lines 71-76): content plus owning list
foreign key.  The creation timestamp is irrelevant to every claim and is
dropped. -/
structure CardRow where
  id : Nat
  content : String
  list_id : Nat
deriving DecidableEq, Repr

/-- The relational store: the four tables, each a list of rows in insertion
order (a SELECT without ORDER BY is modelled as returning insertion order). -/
structure DBState where
  users : List UserRow
  boards : List BoardRow
  lists : List ListRow
  cards : List CardRow
deriving DecidableEq, Repr

/-- Configuration carried by a `db.relationship(...)` declaration: the name of
the reverse accessor and whether `cascade="all, delete-orphan"` was given. -/
structure RelationshipCfg where
  backref : String
  cascade_delete_orphan : Bool
deriving DecidableEq, Repr

/-- app.py line 48: `boards = db.relationship('Board', backref='user',
cascade="all, delete-orphan")` - the first of the two assignments to
`User.boards` in the class body. -/
def User_boards_line48 : RelationshipCfg := ⟨"user", true⟩

/-- app.py line 50: `boards = db.relationship('Board', backref='owner',
lazy=True)` - the second assignment, with no cascade option. -/
def User_boards_line50 : RelationshipCfg := ⟨"owner", false⟩

/-- The effective `User.boards` relationship.  A Python class body executes
sequentially, so the assignment on line 50 overwrites the one on line 48
before the declarative mapper runs: only the line-50 configuration exists. -/
def User_boards : RelationshipCfg := User_boards_line50

/-- app.py line 60: `Board.lists`, with `cascade="all, delete-orphan"`. -/
def Board_lists : RelationshipCfg := ⟨"board", true⟩

/-- app.py line 69: `List.cards`, with `cascade="all, delete-orphan"`. -/
def List_cards : RelationshipCfg := ⟨"list", true⟩

/-- `User.query.get(uid)` - primary key lookup. -/
def getUser (s : DBState) (uid : Nat) : Option UserRow :=
  s.users.find? (fun u => u.id == uid)

/-- `Board.query.get(bid)` - primary key lookup. -/
def getBoard (s : DBState) (bid : Nat) : Option BoardRow :=
  s.boards.find? (fun b => b.id == bid)

/-- `List.query.get(lid)` - primary key lookup. -/
def getList (s : DBState) (lid : Nat) : Option ListRow :=
  s.lists.find? (fun l => l.id == lid)

/-- `Card.query.get(cid)` - primary key lookup. -/
def getCard (s : DBState) (cid : Nat) : Option CardRow :=
  s.cards.find? (fun c => c.id == cid)

/-- Python truthiness of `request.form.get(name)` as used in the guards
`if not board_title` / `if not list_title` / `if not card_content`
(app.py lines 159, 220, 270): falsy exactly for a missing field (None) or
the empty string. -/
def formFalsy : Option String → Bool
  | none => true
  | some t => t.isEmpty

/-- Autoincrement primary key for the boards table: one more than the
current maximum id. -/
def nextBoardId (s : DBState) : Nat :=
  s.boards.foldr (fun b m => max b.id m) 0 + 1

/-- Autoincrement primary key for the lists table. -/
def nextListId (s : DBState) : Nat :=
  s.lists.foldr (fun l m => max l.id m) 0 + 1

/-- Autoincrement primary key for the cards table. -/
def nextCardId (s : DBState) : Nat :=
  s.cards.foldr (fun c m => max c.id m) 0 + 1

/-- Autoincrement primary key for the users table. -/
def nextUserId (s : DBState) : Nat :=
  s.users.foldr (fun u m => max u.id m) 0 + 1

/-- A flask `flash(message, category)` notice. -/
structure Flash where
  message : String
  category : String
deriving DecidableEq, Repr

/-- The `board` object of the JSON payload returned to an AJAX board
creation (app.py lines 181-185). -/
structure BoardJson where
  id : Nat
  title : String
  list_count : Nat
deriving DecidableEq, Repr

/-- A `jsonify({'success': ..., 'message': ..., 'board': ...})` payload. -/
structure JsonPayload where
  success : Bool
  message : String
  board : Option BoardJson
deriving DecidableEq, Repr

/-- The observable outcome of a request: a redirect carrying a flash, a
rendered page, a 404 from `get_or_404` / `first_or_404`, an unhandled
exception (only reachable when a foreign key dangles), or a JSON response
with its HTTP status. -/
inductive Response where
  | redirectIndex (fl : Flash)
  | redirectBoard (board_id : Nat) (fl : Flash)
  | redirectLoginPage (fl : Flash)
  | renderIndex (boards : List BoardRow)
  | renderBoardDetail (board_id : Nat)
  | renderRegister (fl : Option Flash)
  | renderLogin (fl : Option Flash)
  | notFound
  | internalError
  | json (status : Nat) (payload : JsonPayload)
deriving DecidableEq, Repr

/-- Modelled from the spec: werkzeug password hashing is an external
collaborator ("password hashing ... assumed as given primitives"); the
implementation (werkzeug.security) is not under src/.  Modelled as an
injective tagging so that a hash matches exactly its own password. -/
def generate_password_hash (password : String) : String :=
  "pbkdf2-sha256$" ++ password

/-- Modelled from the spec: werkzeug `check_password_hash`, the inverse
check of `generate_password_hash`. -/
def check_password_hash (hash password : String) : Bool :=
  hash == generate_password_hash password

/-- Modelled from the spec: `RegisterForm` lives in forms.py, which is not
under src/; the spec treats form validation as "required fields" being
present, so `form.validate_on_submit()` succeeds exactly when all three
fields are non-empty. -/
def registerFormValid (username email password : String) : Bool :=
  !username.isEmpty && !email.isEmpty && !password.isEmpty

/-- Descending insertion into a list already sorted by descending id; used
to model the `ORDER BY board.id DESC` of the index query. -/
def insertDescById (b : BoardRow) : List BoardRow → List BoardRow
  | [] => [b]
  | x :: xs => if x.id ≤ b.id then b :: x :: xs else x :: insertDescById b xs

/-- Stable sort by descending id: the semantics of
`.order_by(desc(Board.id))`. -/
def orderByIdDesc : List BoardRow → List BoardRow
  | [] => []
  | x :: xs => insertDescById x (orderByIdDesc xs)

/-- Embeds the `index` route (app.py lines 80-92) for an authenticated
`current_user`.  The handler builds `boards`, a descending-id ordered query,
but then renders `user_boards = current_user.boards`, the bare relationship
collection (no ORDER BY, hence insertion order); the ordered list is never
used. -/
def index (s : DBState) (current_user : UserRow) : Response :=
  let boards :=
    orderByIdDesc (s.boards.filter (fun b => b.user_id == current_user.id))
  let user_boards := s.boards.filter (fun b => b.user_id == current_user.id)
  let _ := boards
  Response.renderIndex user_boards

/-- The descending-id query computed (and discarded) by `index`
(app.py lines 86-88). -/
def index_query_boards (s : DBState) (current_user : UserRow) : List BoardRow :=
  orderByIdDesc (s.boards.filter (fun b => b.user_id == current_user.id))

/-- Embeds the POST branch of the `login` route (app.py lines 95-115) with a
validated form and no `next` parameter.  Returns the response together with
the session contents: `some uid` after `login_user(user)`, `none` otherwise. -/
def login (s : DBState) (username password : String) : Response × Option Nat :=
  match s.users.find? (fun u => u.username == username) with
  | some user =>
    if check_password_hash user.password_hash password then
      (Response.redirectIndex
        ⟨"Logged in successfully as " ++ user.username ++ ".", "success"⟩,
       some user.id)
    else
      (Response.renderLogin
        (some ⟨"Login Unsuccessful. Check username and password.", "danger"⟩),
       none)
  | none =>
      (Response.renderLogin
        (some ⟨"Login Unsuccessful. Check username and password.", "danger"⟩),
       none)

/-- Embeds the POST branch of the `register` route (app.py lines 119-150).
The commit raises (and is rolled back) when the username or email collides
with an existing row - the UNIQUE constraints - or when the storage layer
fails for an external reason (`commitOk = false`). -/
def register (s : DBState) (username email password : String)
    (commitOk : Bool) : Response × DBState :=
  if registerFormValid username email password then
    let hashed_password := generate_password_hash password
    let new_user : UserRow := ⟨nextUserId s, username, email, hashed_password⟩
    if s.users.any (fun u => u.username == username || u.email == email)
        || !commitOk then
      (Response.renderRegister
        (some ⟨"An error occurred during registration. Check if username or email is already in use.",
               "danger"⟩), s)
    else
      (Response.redirectLoginPage
        ⟨"Registration successful! Please log in.", "success"⟩,
       { s with users := s.users ++ [new_user] })
  else
    (Response.renderRegister none, s)

/-- Embeds the `new_board` route (app.py lines 154-200).  `isAjax` is the
`X-Requested-With: XMLHttpRequest` header test; `commitOk` models the
storage layer accepting or rejecting the transaction. -/
def new_board (s : DBState) (current_user : UserRow) (title : Option String)
    (isAjax : Bool) (commitOk : Bool) : Response × DBState :=
  if formFalsy title then
    if isAjax then
      (Response.json 400 ⟨false, "Board title cannot be empty.", none⟩, s)
    else
      (Response.redirectIndex ⟨"Board title cannot be empty.", "danger"⟩, s)
  else
    let board_title := title.getD ""
    let nb : BoardRow := ⟨nextBoardId s, board_title, current_user.id⟩
    if commitOk then
      let s2 := { s with boards := s.boards ++ [nb] }
      if isAjax then
        (Response.json 201
          ⟨true, "Board \"" ++ board_title ++ "\" created successfully!",
           some ⟨nb.id, nb.title, 0⟩⟩, s2)
      else
        (Response.redirectIndex
          ⟨"Board \"" ++ board_title ++ "\" created successfully!", "success"⟩,
         s2)
    else
      if isAjax then
        (Response.json 500
          ⟨false, "There was an issue creating the board.", none⟩, s)
      else
        (Response.redirectIndex
          ⟨"There was an issue creating the board.", "danger"⟩, s)

/-- Embeds the `new_list` route (app.py lines 208-235): load the board
(404 when absent), ownership check, then the empty-title check, then the
insert. -/
def new_list (s : DBState) (current_user : UserRow) (board_id : Nat)
    (title : Option String) (commitOk : Bool) : Response × DBState :=
  match getBoard s board_id with
  | none => (Response.notFound, s)
  | some board =>
    if board.user_id != current_user.id then
      (Response.redirectIndex ⟨"Unauthorized action.", "danger"⟩, s)
    else if formFalsy title then
      (Response.redirectBoard board.id
        ⟨"List title cannot be empty.", "danger"⟩, s)
    else
      let list_title := title.getD ""
      let nl : ListRow := ⟨nextListId s, list_title, board.id⟩
      if commitOk then
        (Response.redirectBoard board.id
          ⟨"List \"" ++ list_title ++ "\" added.", "success"⟩,
         { s with lists := s.lists ++ [nl] })
      else
        (Response.redirectBoard board.id
          ⟨"There was an issue creating the list.", "danger"⟩, s)

/-- Embeds the `view_board` route (app.py lines 241-255).  Read-only: it
only queries, so it returns a response and no successor state. -/
def view_board (s : DBState) (current_user : UserRow) (board_id : Nat) :
    Response :=
  match getBoard s board_id with
  | none => Response.notFound
  | some board =>
    if board.user_id != current_user.id then
      Response.redirectIndex
        ⟨"You do not have permission to view that board.", "danger"⟩
    else
      Response.renderBoardDetail board.id

/-- Embeds the `create_card` route (app.py lines 259-291): load the list
(404 when absent), ownership check through `list_parent.board.user_id`,
then the empty-content check, then the insert.  `internalError` is the
AttributeError a dangling `board_id` foreign key would raise. -/
def create_card (s : DBState) (current_user : UserRow) (list_id : Nat)
    (content : Option String) (commitOk : Bool) : Response × DBState :=
  let card_content := content
  match getList s list_id with
  | none => (Response.notFound, s)
  | some list_parent =>
    match getBoard s list_parent.board_id with
    | none => (Response.internalError, s)
    | some board =>
      if board.user_id != current_user.id then
        (Response.redirectIndex ⟨"Unauthorized action.", "danger"⟩, s)
      else if formFalsy card_content then
        (Response.redirectBoard list_parent.board_id
          ⟨"Card content cannot be empty.", "danger"⟩, s)
      else
        let nc : CardRow := ⟨nextCardId s, card_content.getD "", list_id⟩
        if commitOk then
          (Response.redirectBoard list_parent.board_id
            ⟨"Card created successfully!", "success"⟩,
           { s with cards := s.cards ++ [nc] })
        else
          (Response.redirectBoard list_parent.board_id
            ⟨"There was an issue creating your card.", "danger"⟩, s)

/-- Primary keys of the lists belonging to a board. -/
def listIdsOfBoard (s : DBState) (bid : Nat) : List Nat :=
  (s.lists.filter (fun l => l.board_id == bid)).map (fun l => l.id)

/-- The effect of `db.session.delete(board)` followed by a successful commit:
because `Board.lists` and `List.cards` both carry
`cascade="all, delete-orphan"`, the board, its lists and their cards are all
deleted in the one transaction. -/
def cascadeDeleteBoard (s : DBState) (bid : Nat) : DBState :=
  let lids := listIdsOfBoard s bid
  { s with
    boards := s.boards.filter (fun b => b.id != bid),
    lists := s.lists.filter (fun l => l.board_id != bid),
    cards := s.cards.filter (fun c => !(lids.contains c.list_id)) }

/-- Embeds the `delete_board` route (app.py lines 295-318). -/
def delete_board (s : DBState) (current_user : UserRow) (board_id : Nat)
    (commitOk : Bool) : Response × DBState :=
  match getBoard s board_id with
  | none => (Response.notFound, s)
  | some board =>
    if board.user_id != current_user.id then
      (Response.redirectIndex
        ⟨"Unauthorized to delete this board.", "danger"⟩, s)
    else if commitOk then
      (Response.redirectIndex
        ⟨"Board \"" ++ board.title ++ "\" successfully deleted.", "success"⟩,
       cascadeDeleteBoard s board.id)
    else
      (Response.redirectIndex
        ⟨"There was an error deleting the board.", "danger"⟩, s)

/-- The effect of `db.session.delete(list_to_delete)` with the `List.cards`
cascade: the list and its cards are deleted. -/
def cascadeDeleteList (s : DBState) (lid : Nat) : DBState :=
  { s with
    lists := s.lists.filter (fun l => l.id != lid),
    cards := s.cards.filter (fun c => c.list_id != lid) }

/-- Embeds the `delete_list` route (app.py lines 322-345): ownership is
checked through `list_to_delete.board.user_id != current_user.id`. -/
def delete_list (s : DBState) (current_user : UserRow) (list_id : Nat)
    (commitOk : Bool) : Response × DBState :=
  match getList s list_id with
  | none => (Response.notFound, s)
  | some list_to_delete =>
    let board_id := list_to_delete.board_id
    match getBoard s board_id with
    | none => (Response.internalError, s)
    | some board =>
      if board.user_id != current_user.id then
        (Response.redirectIndex
          ⟨"Unauthorized to delete this list.", "danger"⟩, s)
      else if commitOk then
        (Response.redirectBoard board_id
          ⟨"List \"" ++ list_to_delete.title ++ "\" successfully deleted.",
           "success"⟩,
         cascadeDeleteList s list_id)
      else
        (Response.redirectBoard board_id
          ⟨"There was an error deleting the list.", "danger"⟩, s)

/-- `board.owner`: the row reached through the `owner` backref of the
line-50 relationship - the user row whose primary key is `board.user_id`,
or None when that key dangles.  In one request both `board.owner` and
`current_user` are loaded in the same session, so the SQLAlchemy identity
map makes Python object equality coincide with row equality. -/
def boardOwnerObj (s : DBState) (b : BoardRow) : Option UserRow :=
  getUser s b.user_id

/-- Embeds the `delete_card` route (app.py lines 349-373): unlike the other
handlers it checks `card_to_delete.list.board.owner != current_user`,
object equality on the `owner` backref rather than an id comparison. -/
def delete_card (s : DBState) (current_user : UserRow) (card_id : Nat)
    (commitOk : Bool) : Response × DBState :=
  match getCard s card_id with
  | none => (Response.notFound, s)
  | some card_to_delete =>
    match getList s card_to_delete.list_id with
    | none => (Response.internalError, s)
    | some lst =>
      let board_id := lst.board_id
      match getBoard s board_id with
      | none => (Response.internalError, s)
      | some board =>
        if boardOwnerObj s board != some current_user then
          (Response.redirectIndex
            ⟨"Unauthorized to delete this card.", "danger"⟩, s)
        else if commitOk then
          (Response.redirectBoard board_id
            ⟨"Card successfully deleted.", "success"⟩,
           { s with cards := s.cards.filter (fun c => c.id != card_id) })
        else
          (Response.redirectBoard board_id
            ⟨"There was an error deleting the card.", "danger"⟩, s)

/-- The effect of `db.session.delete(user)` under the EFFECTIVE mapping.
The line-50 `User.boards` relationship carries no delete cascade, so
SQLAlchemy falls back to nullifying `board.user_id` on the owned boards; the
column is `nullable=False`, so the flush raises an IntegrityError and rolls
back whenever the user still owns a board.  Had the line-48 cascade
survived, the delete would instead cascade through boards, lists and cards. -/
def delete_user (s : DBState) (uid : Nat) : Except String DBState :=
  if User_boards.cascade_delete_orphan then
    let bids := (s.boards.filter (fun b => b.user_id == uid)).map (fun b => b.id)
    let lids := (s.lists.filter (fun l => bids.contains l.board_id)).map (fun l => l.id)
    Except.ok
      { users := s.users.filter (fun u => u.id != uid),
        boards := s.boards.filter (fun b => b.user_id != uid),
        lists := s.lists.filter (fun l => !(bids.contains l.board_id)),
        cards := s.cards.filter (fun c => !(lids.contains c.list_id)) }
  else
    if s.boards.any (fun b => b.user_id == uid) then
      Except.error "IntegrityError: NOT NULL constraint failed: board.user_id"
    else
      Except.ok { s with users := s.users.filter (fun u => u.id != uid) }

/-- Total number of rows across the four tables. -/
def rowCount (s : DBState) : Nat :=
  s.users.length + s.boards.length + s.lists.length + s.cards.length

/-! ### Concrete fixtures used by witnesses and counterexamples -/

/-- Alice, the owner in the cross-user scenarios. -/
def userA : UserRow := ⟨1, "alice", "a@x.com", generate_password_hash "pw1"⟩

/-- Bob, the foreign user in the cross-user scenarios. -/
def userB : UserRow := ⟨2, "bob", "b@y.com", generate_password_hash "pw2"⟩

/-- A board of Alice. -/
def boardA : BoardRow := ⟨1, "Private", 1⟩

/-- A second board of Alice. -/
def boardW : BoardRow := ⟨2, "Work", 1⟩

/-- A board of Bob. -/
def boardB : BoardRow := ⟨3, "Bobs board", 2⟩

/-- A list on Alices board 1. -/
def listA : ListRow := ⟨1, "Todo", 1⟩

/-- A second list on Alices board 1. -/
def listA2 : ListRow := ⟨2, "Doing", 1⟩

/-- A list on Bobs board 3. -/
def listB : ListRow := ⟨3, "Backlog", 3⟩

/-- Cards of Alice (two on list 1, one on list 2) and one of Bob. -/
def cardA1 : CardRow := ⟨1, "Write spec", 1⟩

/-- Second card on Alices list 1. -/
def cardA2 : CardRow := ⟨2, "Review spec", 1⟩

/-- Card on Alices list 2. -/
def cardA3 : CardRow := ⟨3, "Ship it", 2⟩

/-- Bobs card on list 3. -/
def cardB : CardRow := ⟨4, "Bobs card", 3⟩

/-- Two users, one board each, one list and one card each on respective
boards. -/
def sAB : DBState := ⟨[userA, userB], [boardA, boardB], [listA, listB], [cardA1, cardB]⟩

/-- Richer state for the cascade count: Alices board 1 has two lists and
three cards; Alice also owns board 2 and Bob owns board 3 with a list and a
card. -/
def sW : DBState :=
  ⟨[userA, userB], [boardA, boardW, boardB], [listA, listA2, listB],
   [cardA1, cardA2, cardA3, cardB]⟩

/-- Alice with two boards inserted in ascending id order. -/
def sIdx : DBState := ⟨[userA], [boardA, boardW], [], []⟩

/-- The empty database. -/
def sEmpty : DBState := ⟨[], [], [], []⟩

/-! ### Helper lemmas -/

/-- Splitting a list by a bne test on a numeric field preserves length. -/
theorem length_filter_bne_add {α : Type} (f : α → Nat) (k : Nat) (l : List α) :
    (l.filter (fun a => f a != k)).length + (l.filter (fun a => f a == k)).length
      = l.length := by
  induction l with
  | nil => rfl
  | cons a t ih =>
    by_cases h : f a = k <;>
      simp [List.filter_cons, h, List.length_cons] <;> omega

/-- Splitting a list by a boolean predicate and its negation preserves
length. -/
theorem length_filter_not_add {α : Type} (p : α → Bool) (l : List α) :
    (l.filter (fun a => !(p a))).length + (l.filter p).length = l.length := by
  induction l with
  | nil => rfl
  | cons a t ih =>
    by_cases h : p a = true <;>
      simp [List.filter_cons, h, List.length_cons] <;> omega

/-- When the primary keys of the users table are distinct, looking up a
member row by its own id returns exactly that row. -/
theorem getUser_self (s : DBState) (cu : UserRow) (hcu : cu ∈ s.users)
    (hnodup : (s.users.map (fun u => u.id)).Nodup) :
    getUser s cu.id = some cu := by
  unfold getUser
  cases hfind : s.users.find? (fun u => u.id == cu.id) with
  | none =>
    exfalso
    have := (List.find?_eq_none.mp hfind) cu hcu
    simp at this
  | some a =>
    have haid : a.id = cu.id := by simpa using List.find?_some hfind
    have hamem : a ∈ s.users := List.mem_of_find?_eq_some hfind
    have : a = cu := List.inj_on_of_nodup_map hnodup hamem hcu haid
    rw [this]

/-- A board whose root owner id differs from the acting users id never has
that user as its `owner` object: the backref lookup returns either None or a
row with a different primary key. -/
theorem boardOwnerObj_ne_of_user_id_ne (s : DBState) (b : BoardRow)
    (cu : UserRow) (h : b.user_id ≠ cu.id) : boardOwnerObj s b ≠ some cu := by
  unfold boardOwnerObj getUser
  cases hfind : s.users.find? (fun u => u.id == b.user_id) with
  | none => simp
  | some a =>
    have haid : a.id = b.user_id := by simpa using List.find?_some hfind
    intro hc
    have hac : a = cu := by simpa using hc
    subst hac
    exact h haid.symm

/-! ### Claims -/

/-- C3: the spec promises that deleting a User cascades over all owned
Boards, Lists and Cards leaving no orphans.  The effective `User.boards`
relationship is the line-50 declaration, which silently overwrote the
line-48 declaration that carried `cascade="all, delete-orphan"`; without the
cascade a user delete cannot remove the owned boards - against the NOT NULL
foreign key it fails outright.  At the concrete failing input (user 1, who
owns board 1) the delete errors and the board survives. -/
theorem delete_user_no_cascade_failing_input :
    User_boards_line48.cascade_delete_orphan = true
  ∧ User_boards.cascade_delete_orphan = false
  ∧ delete_user sAB 1 =
      Except.error "IntegrityError: NOT NULL constraint failed: board.user_id"
  ∧ boardA ∈ sAB.boards ∧ boardA.user_id = userA.id :=
  ⟨rfl, rfl, rfl, by decide, rfl⟩

/-- C4: the spec promises the index lists the current users boards most
recent first.  The handler computes the descending-id query but renders the
bare `current_user.boards` relationship collection, i.e. insertion order:
with boards inserted as ids 1, 2 the page shows [1, 2] while the discarded
query yields [2, 1]. -/
theorem index_renders_unordered_boards :
    index sIdx userA = Response.renderIndex [boardA, boardW]
  ∧ index_query_boards sIdx userA = [boardW, boardA]
  ∧ ([boardA, boardW] : List BoardRow) ≠ [boardW, boardA] := by
  refine ⟨rfl, rfl, by decide⟩

/-- C1: whenever an authenticated user attempts any of the six guarded
operations (view board detail, create list, create card, delete board,
delete list, delete card) on an entity whose ownership chain resolves to a
different user, the handler answers with the corresponding unauthorized
redirect-and-notice and returns the storage state unchanged. -/
theorem unauthorized_cross_user_ops_no_mutation (s : DBState) (cu : UserRow) :
    (∀ bid b, getBoard s bid = some b → b.user_id ≠ cu.id →
      view_board s cu bid =
        Response.redirectIndex
          ⟨"You do not have permission to view that board.", "danger"⟩)
  ∧ (∀ bid b title ok, getBoard s bid = some b → b.user_id ≠ cu.id →
      new_list s cu bid title ok =
        (Response.redirectIndex ⟨"Unauthorized action.", "danger"⟩, s))
  ∧ (∀ lid l b content ok, getList s lid = some l →
      getBoard s l.board_id = some b → b.user_id ≠ cu.id →
      create_card s cu lid content ok =
        (Response.redirectIndex ⟨"Unauthorized action.", "danger"⟩, s))
  ∧ (∀ bid b ok, getBoard s bid = some b → b.user_id ≠ cu.id →
      delete_board s cu bid ok =
        (Response.redirectIndex ⟨"Unauthorized to delete this board.", "danger"⟩, s))
  ∧ (∀ lid l b ok, getList s lid = some l →
      getBoard s l.board_id = some b → b.user_id ≠ cu.id →
      delete_list s cu lid ok =
        (Response.redirectIndex ⟨"Unauthorized to delete this list.", "danger"⟩, s))
  ∧ (∀ cid c l b ok, getCard s cid = some c → getList s c.list_id = some l →
      getBoard s l.board_id = some b → b.user_id ≠ cu.id →
      delete_card s cu cid ok =
        (Response.redirectIndex ⟨"Unauthorized to delete this card.", "danger"⟩, s)) := by
  refine ⟨?_, ?_, ?_, ?_, ?_, ?_⟩
  · intro bid b hb h
    simp [view_board, hb, bne_iff_ne, h]
  · intro bid b title ok hb h
    simp [new_list, hb, bne_iff_ne, h]
  · intro lid l b content ok hl hb h
    simp [create_card, hl, hb, bne_iff_ne, h]
  · intro bid b ok hb h
    simp [delete_board, hb, bne_iff_ne, h]
  · intro lid l b ok hl hb h
    simp [delete_list, hl, hb, bne_iff_ne, h]
  · intro cid c l b ok hc hl hb h
    have howner := boardOwnerObj_ne_of_user_id_ne s b cu h
    simp [delete_card, hc, hl, hb, bne_iff_ne, howner]

/-- C1 witness: Bob attempts all six operations on Alices board 1, list 1
and card 1; each answers unauthorized and leaves the two-user state
untouched. -/
theorem unauthorized_cross_user_ops_no_mutation_witness :
    view_board sAB userB 1 =
      Response.redirectIndex
        ⟨"You do not have permission to view that board.", "danger"⟩
  ∧ new_list sAB userB 1 (some "L") true =
      (Response.redirectIndex ⟨"Unauthorized action.", "danger"⟩, sAB)
  ∧ create_card sAB userB 1 (some "C") true =
      (Response.redirectIndex ⟨"Unauthorized action.", "danger"⟩, sAB)
  ∧ delete_board sAB userB 1 true =
      (Response.redirectIndex ⟨"Unauthorized to delete this board.", "danger"⟩, sAB)
  ∧ delete_list sAB userB 1 true =
      (Response.redirectIndex ⟨"Unauthorized to delete this list.", "danger"⟩, sAB)
  ∧ delete_card sAB userB 1 true =
      (Response.redirectIndex ⟨"Unauthorized to delete this card.", "danger"⟩, sAB) := by
  obtain ⟨h1, h2, h3, h4, h5, h6⟩ :=
    unauthorized_cross_user_ops_no_mutation sAB userB
  exact ⟨h1 1 boardA rfl (by decide),
         h2 1 boardA (some "L") true rfl (by decide),
         h3 1 listA boardA (some "C") true rfl rfl (by decide),
         h4 1 boardA true rfl (by decide),
         h5 1 listA boardA true rfl rfl (by decide),
         h6 1 cardA1 listA boardA true rfl rfl rfl (by decide)⟩

/-- C9: the object-equality ownership test of `delete_card`
(`board.owner != current_user`) and the identifier comparison of the other
handlers (`board.user_id != current_user.id`) compute the same boolean on
every board, provided the acting user is a row of the users table and user
primary keys are distinct - which the identity map and the UNIQUE primary
key guarantee for every real request. -/
theorem owner_object_check_equiv_id_check (s : DBState) (b : BoardRow)
    (cu : UserRow) (hcu : cu ∈ s.users)
    (hnodup : (s.users.map (fun u => u.id)).Nodup) :
    (boardOwnerObj s b != some cu) = (b.user_id != cu.id) := by
  rw [Bool.eq_iff_iff]
  simp only [bne_iff_ne]
  constructor
  · intro hobj hid
    apply hobj
    unfold boardOwnerObj
    rw [hid]
    exact getUser_self s cu hcu hnodup
  · intro hid hobj
    apply hid
    have := List.find?_some (show s.users.find? (fun u => u.id == b.user_id)
      = some cu from hobj)
    have hcid : cu.id = b.user_id := by simpa using this
    exact hcid.symm

/-- C9 witness: on the concrete two-user state the two ownership tests agree
both for the owner (Alice on her own board) and for a foreign user (Bob on
Alices board). -/
theorem owner_object_check_equiv_id_check_witness :
    (boardOwnerObj sAB boardA != some userA) = (boardA.user_id != userA.id)
  ∧ (boardOwnerObj sAB boardA != some userB) = (boardA.user_id != userB.id) :=
  ⟨owner_object_check_equiv_id_check sAB boardA userA (by decide) (by decide),
   owner_object_check_equiv_id_check sAB boardA userB (by decide) (by decide)⟩

/-- C2: a successful owner delete of a board with N lists and M cards on
those lists removes exactly 1 + N + M rows (the `Board.lists` and
`List.cards` cascades), never touches the users table, and preserves every
board with a different id, every list of a different board and every card on
a list outside the deleted board - in particular all rows of other users and
the acting users other boards. -/
theorem delete_board_cascade_row_count (s : DBState) (cu : UserRow)
    (bid : Nat) (b : BoardRow) (hb : getBoard s bid = some b)
    (hown : b.user_id = cu.id)
    (huniq : (s.boards.filter (fun x => x.id == bid)).length = 1) :
    rowCount (delete_board s cu bid true).2
      + (1 + (s.lists.filter (fun l => l.board_id == bid)).length
          + (s.cards.filter (fun c =>
              (listIdsOfBoard s bid).contains c.list_id)).length)
      = rowCount s
  ∧ (delete_board s cu bid true).2.users = s.users
  ∧ (∀ b2 ∈ s.boards, b2.id ≠ bid →
       b2 ∈ (delete_board s cu bid true).2.boards)
  ∧ (∀ l2 ∈ s.lists, l2.board_id ≠ bid →
       l2 ∈ (delete_board s cu bid true).2.lists)
  ∧ (∀ c2 ∈ s.cards, (listIdsOfBoard s bid).contains c2.list_id = false →
       c2 ∈ (delete_board s cu bid true).2.cards) := by
  have hbid : b.id = bid := by simpa using List.find?_some hb
  have h2 : (delete_board s cu bid true).2 = cascadeDeleteBoard s bid := by
    simp [delete_board, hb, hown, hbid]
  rw [h2]
  refine ⟨?_, rfl, ?_, ?_, ?_⟩
  · have hA := length_filter_bne_add (fun x : BoardRow => x.id) bid s.boards
    have hB := length_filter_bne_add (fun l : ListRow => l.board_id) bid s.lists
    have hC := length_filter_not_add
      (fun c : CardRow => (listIdsOfBoard s bid).contains c.list_id) s.cards
    simp only [cascadeDeleteBoard, rowCount]
    omega
  · intro b2 hb2 hne
    simp only [cascadeDeleteBoard]
    rw [List.mem_filter]
    exact ⟨hb2, by simp [bne_iff_ne, hne]⟩
  · intro l2 hl2 hne
    simp only [cascadeDeleteBoard]
    rw [List.mem_filter]
    exact ⟨hl2, by simp [bne_iff_ne, hne]⟩
  · intro c2 hc2 hout
    simp only [cascadeDeleteBoard]
    rw [List.mem_filter]
    exact ⟨hc2, by rw [hout]; rfl⟩

/-- C2 witness: Alice deletes board 1 of `sW` (2 lists, 3 cards on them):
exactly 6 rows disappear, while Bobs board and card and Alices other board
survive. -/
theorem delete_board_cascade_row_count_witness :
    rowCount (delete_board sW userA 1 true).2 + (1 + 2 + 3) = rowCount sW
  ∧ boardB ∈ (delete_board sW userA 1 true).2.boards
  ∧ boardW ∈ (delete_board sW userA 1 true).2.boards
  ∧ cardB ∈ (delete_board sW userA 1 true).2.cards := by
  have h := delete_board_cascade_row_count sW userA 1 boardA rfl rfl (by decide)
  refine ⟨?_, ?_, ?_, ?_⟩
  · have e1 : (sW.lists.filter (fun l => l.board_id == 1)).length = 2 := rfl
    have e2 : (sW.cards.filter (fun c =>
        (listIdsOfBoard sW 1).contains c.list_id)).length = 3 := rfl
    have h1 := h.1
    omega
  · exact h.2.2.1 boardB (by decide) (by decide)
  · exact h.2.2.1 boardW (by decide) (by decide)
  · exact h.2.2.2.2 cardB (by decide) (by decide)

/-- C5 counterexample: the claim says an empty required field yields a
validation error regardless of ownership, because validation supposedly runs
before the entity is loaded and the Ownership Guard applied.  But when Bob
posts an empty list title to Alices existing board 1, the handler answers
with the Unauthorized redirect, not the validation error: the guard runs
first. -/
theorem empty_title_unauthorized_precedence_cex :
    formFalsy none = true
  ∧ new_list sAB userB 1 none true =
      (Response.redirectIndex ⟨"Unauthorized action.", "danger"⟩, sAB)
  ∧ Response.redirectIndex ⟨"Unauthorized action.", "danger"⟩ ≠
      Response.redirectBoard 1 ⟨"List title cannot be empty.", "danger"⟩ :=
  ⟨rfl, rfl, by decide⟩

/-- C5 amended: `new_list` and `create_card` load the target entity and
apply the Ownership Guard BEFORE validating the required field; an empty
required field yields the validation error exactly when the entity exists
and is owned by the requester, while a missing id yields NotFound and a
foreign owner yields Unauthorized - in every case with storage unchanged. -/
theorem load_and_guard_precede_validation (s : DBState) (cu : UserRow) :
    (∀ bid title ok, getBoard s bid = none → formFalsy title = true →
       new_list s cu bid title ok = (Response.notFound, s))
  ∧ (∀ bid b title ok, getBoard s bid = some b → b.user_id ≠ cu.id →
       formFalsy title = true →
       new_list s cu bid title ok =
         (Response.redirectIndex ⟨"Unauthorized action.", "danger"⟩, s))
  ∧ (∀ bid b title ok, getBoard s bid = some b → b.user_id = cu.id →
       formFalsy title = true →
       new_list s cu bid title ok =
         (Response.redirectBoard b.id
            ⟨"List title cannot be empty.", "danger"⟩, s))
  ∧ (∀ lid content ok, getList s lid = none → formFalsy content = true →
       create_card s cu lid content ok = (Response.notFound, s))
  ∧ (∀ lid l b content ok, getList s lid = some l →
       getBoard s l.board_id = some b → b.user_id ≠ cu.id →
       formFalsy content = true →
       create_card s cu lid content ok =
         (Response.redirectIndex ⟨"Unauthorized action.", "danger"⟩, s))
  ∧ (∀ lid l b content ok, getList s lid = some l →
       getBoard s l.board_id = some b → b.user_id = cu.id →
       formFalsy content = true →
       create_card s cu lid content ok =
         (Response.redirectBoard l.board_id
            ⟨"Card content cannot be empty.", "danger"⟩, s)) := by
  refine ⟨?_, ?_, ?_, ?_, ?_, ?_⟩
  · intro bid title ok hnone _
    simp [new_list, hnone]
  · intro bid b title ok hb hne _
    simp [new_list, hb, bne_iff_ne, hne]
  · intro bid b title ok hb hown hf
    simp [new_list, hb, hown, hf]
  · intro lid content ok hnone _
    simp [create_card, hnone]
  · intro lid l b content ok hl hb hne _
    simp [create_card, hl, hb, bne_iff_ne, hne]
  · intro lid l b content ok hl hb hown hf
    simp [create_card, hl, hb, hown, hf]

/-- C5 amended witness: on the two-user state, an empty title against a
missing board 404s, and an empty title or content against the requesters
own board 1 / list 1 produces the validation redirect with storage
unchanged. -/
theorem load_and_guard_precede_validation_witness :
    new_list sAB userA 99 none true = (Response.notFound, sAB)
  ∧ new_list sAB userA 1 none true =
      (Response.redirectBoard 1 ⟨"List title cannot be empty.", "danger"⟩, sAB)
  ∧ create_card sAB userA 1 none true =
      (Response.redirectBoard 1 ⟨"Card content cannot be empty.", "danger"⟩, sAB) := by
  obtain ⟨h1, _, h3, _, _, h6⟩ := load_and_guard_precede_validation sAB userA
  exact ⟨h1 99 none true rfl rfl,
         h3 1 boardA none true rfl rfl rfl,
         h6 1 listA boardA none true rfl rfl rfl rfl⟩

/-- C6 counterexample: the claim promises every authenticated empty-field
create request surfaces a user-visible validation notice.  Bobs empty-title
list creation against the nonexistent board 99 is such a request, yet the
response is the bare 404 from `get_or_404`, which carries no notice at all
(in particular not the validation one). -/
theorem empty_field_notfound_no_notice_cex :
    formFalsy none = true
  ∧ new_list sAB userB 99 none true = (Response.notFound, sAB)
  ∧ Response.notFound ≠
      Response.redirectBoard 99 ⟨"List title cannot be empty.", "danger"⟩ :=
  ⟨rfl, rfl, by decide⟩

/-- C6 amended: an authenticated create request with an empty required
field NEVER persists a row - storage is returned unchanged on every path -
and it surfaces the validation notice whenever the validation guard is
reached: always for board creation, and for list/card creation exactly when
the parent entity exists and belongs to the requester (a missing parent
404s and a foreign owner is answered Unauthorized instead). -/
theorem empty_field_never_persists (s : DBState) (cu : UserRow) :
    (∀ title isAjax ok, formFalsy title = true →
       (new_board s cu title isAjax ok).2 = s)
  ∧ (∀ title ok, formFalsy title = true →
       new_board s cu title false ok =
         (Response.redirectIndex ⟨"Board title cannot be empty.", "danger"⟩, s))
  ∧ (∀ title ok, formFalsy title = true →
       new_board s cu title true ok =
         (Response.json 400 ⟨false, "Board title cannot be empty.", none⟩, s))
  ∧ (∀ bid title ok, formFalsy title = true →
       (new_list s cu bid title ok).2 = s)
  ∧ (∀ bid b title ok, getBoard s bid = some b → b.user_id = cu.id →
       formFalsy title = true →
       (new_list s cu bid title ok).1 =
         Response.redirectBoard b.id ⟨"List title cannot be empty.", "danger"⟩)
  ∧ (∀ lid content ok, formFalsy content = true →
       (create_card s cu lid content ok).2 = s)
  ∧ (∀ lid l b content ok, getList s lid = some l →
       getBoard s l.board_id = some b → b.user_id = cu.id →
       formFalsy content = true →
       (create_card s cu lid content ok).1 =
         Response.redirectBoard l.board_id
           ⟨"Card content cannot be empty.", "danger"⟩) := by
  refine ⟨?_, ?_, ?_, ?_, ?_, ?_, ?_⟩
  · intro title isAjax ok hf
    cases isAjax <;> simp [new_board, hf]
  · intro title ok hf
    simp [new_board, hf]
  · intro title ok hf
    simp [new_board, hf]
  · intro bid title ok hf
    rcases hgb : getBoard s bid with _ | b
    · simp [new_list, hgb]
    · by_cases hbu : b.user_id = cu.id
      · simp [new_list, hgb, hbu, hf]
      · simp [new_list, hgb, bne_iff_ne, hbu]
  · intro bid b title ok hb hown hf
    simp [new_list, hb, hown, hf]
  · intro lid content ok hf
    rcases hgl : getList s lid with _ | l
    · simp [create_card, hgl]
    · rcases hgb : getBoard s l.board_id with _ | b
      · simp [create_card, hgl, hgb]
      · by_cases hbu : b.user_id = cu.id
        · simp [create_card, hgl, hgb, hbu, hf]
        · simp [create_card, hgl, hgb, bne_iff_ne, hbu]
  · intro lid l b content ok hl hb hown hf
    simp [create_card, hl, hb, hown, hf]

/-- C6 amended witness: concrete empty-field requests - Alices empty board
title (both page and AJAX form), Alices empty list title on her own board,
Bobs empty list title on Alices board, and Alices empty card content -
all leave the state unchanged, with the validation notice shown on the
reached-validation paths. -/
theorem empty_field_never_persists_witness :
    new_board sAB userA none false true =
      (Response.redirectIndex ⟨"Board title cannot be empty.", "danger"⟩, sAB)
  ∧ new_board sAB userA (some "") true true =
      (Response.json 400 ⟨false, "Board title cannot be empty.", none⟩, sAB)
  ∧ (new_list sAB userA 1 none true).1 =
      Response.redirectBoard 1 ⟨"List title cannot be empty.", "danger"⟩
  ∧ (new_list sAB userB 1 none true).2 = sAB
  ∧ (create_card sAB userA 1 (some "") true).1 =
      Response.redirectBoard 1 ⟨"Card content cannot be empty.", "danger"⟩ := by
  obtain ⟨_, hA2, hA3, _, hA5, _, hA7⟩ := empty_field_never_persists sAB userA
  obtain ⟨_, _, _, hB4, _, _, _⟩ := empty_field_never_persists sAB userB
  exact ⟨hA2 none true rfl,
         hA3 (some "") true rfl,
         hA5 1 boardA none true rfl rfl rfl,
         hB4 1 none true rfl,
         hA7 1 listA boardA (some "") true rfl rfl rfl rfl⟩

/-- C7: registering a valid fresh (username, email, password) persists
exactly one new User (all other tables untouched); authenticating with the
same username and password then succeeds and binds the session to the new
users id; and a second registration reusing the username or the email fails
with the duplicate-identity notice, leaving the whole state - in particular
the user count - unchanged. -/
theorem register_then_authenticate_unique (s : DBState)
    (username email password : String)
    (hval : registerFormValid username email password = true)
    (hfresh : s.users.any
      (fun u => u.username == username || u.email == email) = false) :
    register s username email password true =
      (Response.redirectLoginPage
         ⟨"Registration successful! Please log in.", "success"⟩,
       { s with users := s.users ++
           [⟨nextUserId s, username, email, generate_password_hash password⟩] })
  ∧ (register s username email password true).2.users.length
      = s.users.length + 1
  ∧ (login (register s username email password true).2 username password).2
      = some (nextUserId s)
  ∧ (∀ u2 e2 p2 ok2, registerFormValid u2 e2 p2 = true →
       u2 = username ∨ e2 = email →
       register (register s username email password true).2 u2 e2 p2 ok2 =
         (Response.renderRegister
            (some ⟨"An error occurred during registration. Check if username or email is already in use.",
                   "danger"⟩),
          (register s username email password true).2)) := by
  have hreg : register s username email password true =
      (Response.redirectLoginPage
         ⟨"Registration successful! Please log in.", "success"⟩,
       { s with users := s.users ++
           [⟨nextUserId s, username, email, generate_password_hash password⟩] }) := by
    simp [register, hval, hfresh]
  have hnone : s.users.find? (fun u => u.username == username) = none := by
    rw [List.find?_eq_none]
    intro u hu
    have h := (List.any_eq_false.mp hfresh) u hu
    simp only [Bool.or_eq_true, not_or, beq_iff_eq] at h
    simpa [beq_iff_eq] using h.1
  refine ⟨hreg, ?_, ?_, ?_⟩
  · rw [hreg]
    simp
  · rw [hreg]
    simp [login, List.find?_append, hnone, check_password_hash]
  · intro u2 e2 p2 ok2 hval2 hdup
    rw [hreg]
    have hdupb : (s.users ++
        [(⟨nextUserId s, username, email, generate_password_hash password⟩ : UserRow)]).any
        (fun u => u.username == u2 || u.email == e2) = true := by
      rcases hdup with h | h <;> simp [List.any_append, h]
    simp [register, hval2, hdupb]

/-- C7 witness: on the empty store, registering alice adds the single user
row, logging in as alice with pw1 succeeds with her id as the session, and
bobs attempt to register under the username alice is rejected with the
duplicate-identity notice and no state change. -/
theorem register_then_authenticate_unique_witness :
    (register sEmpty "alice" "a@x.com" "pw1" true).2.users.length = 0 + 1
  ∧ (login (register sEmpty "alice" "a@x.com" "pw1" true).2 "alice" "pw1").2
      = some (nextUserId sEmpty)
  ∧ register (register sEmpty "alice" "a@x.com" "pw1" true).2
        "alice" "b@y.com" "pw2" true =
      (Response.renderRegister
         (some ⟨"An error occurred during registration. Check if username or email is already in use.",
                "danger"⟩),
       (register sEmpty "alice" "a@x.com" "pw1" true).2) := by
  have h := register_then_authenticate_unique sEmpty "alice" "a@x.com" "pw1"
    rfl rfl
  exact ⟨h.2.1, h.2.2.1, h.2.2.2 "alice" "b@y.com" "pw2" true rfl (Or.inl rfl)⟩

/-- C8: the board-creation JSON contract.  Over an AJAX request: empty
title answers 400 with a failure payload and no insertion; a non-empty
title with a successful commit answers 201 with the created boards id and
title and a list_count of 0, the row appended; a storage failure answers
500 with a failure payload and the state rolled back.  A page (non-AJAX)
request instead redirects to the index with the corresponding flash
notice. -/
theorem new_board_ajax_json_contract (s : DBState) (cu : UserRow) :
    (∀ title ok, formFalsy title = true →
       new_board s cu title true ok =
         (Response.json 400 ⟨false, "Board title cannot be empty.", none⟩, s))
  ∧ (∀ t, formFalsy (some t) = false →
       new_board s cu (some t) true true =
         (Response.json 201
            ⟨true, "Board \"" ++ t ++ "\" created successfully!",
             some ⟨nextBoardId s, t, 0⟩⟩,
          { s with boards := s.boards ++ [⟨nextBoardId s, t, cu.id⟩] }))
  ∧ (∀ t, formFalsy (some t) = false →
       new_board s cu (some t) true false =
         (Response.json 500
            ⟨false, "There was an issue creating the board.", none⟩, s))
  ∧ (∀ title ok, formFalsy title = true →
       new_board s cu title false ok =
         (Response.redirectIndex ⟨"Board title cannot be empty.", "danger"⟩, s))
  ∧ (∀ t, formFalsy (some t) = false →
       new_board s cu (some t) false true =
         (Response.redirectIndex
            ⟨"Board \"" ++ t ++ "\" created successfully!", "success"⟩,
          { s with boards := s.boards ++ [⟨nextBoardId s, t, cu.id⟩] }))
  ∧ (∀ t, formFalsy (some t) = false →
       new_board s cu (some t) false false =
         (Response.redirectIndex
            ⟨"There was an issue creating the board.", "danger"⟩, s)) := by
  refine ⟨?_, ?_, ?_, ?_, ?_, ?_⟩ <;> first
    | (intro title ok hf
       simp [new_board, hf])
    | (intro t hf
       simp [new_board, hf])

/-- C8 witness: on the empty store, the four response shapes at concrete
inputs - 400 on empty AJAX title, 201 with board id 1 / title W /
list_count 0 on success, 500 on storage failure, and the non-AJAX success
redirect. -/
theorem new_board_ajax_json_contract_witness :
    new_board sEmpty userA (some "") true true =
      (Response.json 400 ⟨false, "Board title cannot be empty.", none⟩, sEmpty)
  ∧ new_board sEmpty userA (some "W") true true =
      (Response.json 201
         ⟨true, "Board \"W\" created successfully!", some ⟨1, "W", 0⟩⟩,
       { sEmpty with boards := [⟨1, "W", 1⟩] })
  ∧ new_board sEmpty userA (some "W") true false =
      (Response.json 500
         ⟨false, "There was an issue creating the board.", none⟩, sEmpty)
  ∧ new_board sEmpty userA (some "W") false true =
      (Response.redirectIndex
         ⟨"Board \"W\" created successfully!", "success"⟩,
       { sEmpty with boards := [⟨1, "W", 1⟩] }) := by
  obtain ⟨h1, h2, h3, _, h5, _⟩ := new_board_ajax_json_contract sEmpty userA
  exact ⟨h1 (some "") true rfl, h2 "W" rfl, h3 "W" rfl, h5 "W" rfl⟩

/-- C10: the truthiness validation rejects only a missing field or the
empty string, so a whitespace-only title or content (non-empty, every
character whitespace) passes validation and is persisted verbatim as the
rows title/content by each of the three creation handlers. -/
theorem whitespace_only_titles_accepted (s : DBState) (cu : UserRow)
    (t : String) (hne : t ≠ "")
    (hws : t.data.all (fun c => c.isWhitespace) = true) :
    formFalsy none = true
  ∧ formFalsy (some "") = true
  ∧ formFalsy (some t) = false
  ∧ (∀ isAjax, (new_board s cu (some t) isAjax true).2 =
       { s with boards := s.boards ++ [⟨nextBoardId s, t, cu.id⟩] })
  ∧ (∀ bid b, getBoard s bid = some b → b.user_id = cu.id →
       (new_list s cu bid (some t) true).2 =
         { s with lists := s.lists ++ [⟨nextListId s, t, b.id⟩] })
  ∧ (∀ lid l b, getList s lid = some l → getBoard s l.board_id = some b →
       b.user_id = cu.id →
       (create_card s cu lid (some t) true).2 =
         { s with cards := s.cards ++ [⟨nextCardId s, t, lid⟩] }) := by
  have hf : formFalsy (some t) = false := by
    show t.isEmpty = false
    rw [← Bool.not_eq_true]
    intro hc
    exact hne ((String.isEmpty_iff t).mp hc)
  refine ⟨rfl, rfl, hf, ?_, ?_, ?_⟩
  · intro isAjax
    cases isAjax <;> simp [new_board, hf]
  · intro bid b hb hown
    simp [new_list, hb, hown, hf]
  · intro lid l b hl hb hown
    simp [create_card, hl, hb, hown, hf]

/-- C10 witness: the three-space string passes validation and is stored
verbatim as a board title, a list title and a card content by Alice on her
own board 1 and list 1. -/
theorem whitespace_only_titles_accepted_witness :
    formFalsy (some "   ") = false
  ∧ (new_board sAB userA (some "   ") false true).2 =
      { sAB with boards := sAB.boards ++ [⟨nextBoardId sAB, "   ", userA.id⟩] }
  ∧ (new_list sAB userA 1 (some "   ") true).2 =
      { sAB with lists := sAB.lists ++ [⟨nextListId sAB, "   ", 1⟩] }
  ∧ (create_card sAB userA 1 (some "   ") true).2 =
      { sAB with cards := sAB.cards ++ [⟨nextCardId sAB, "   ", 1⟩] } := by
  have h := whitespace_only_titles_accepted sAB userA "   " (by decide) (by decide)
  exact ⟨h.2.2.1, h.2.2.2.1 false, h.2.2.2.2.1 1 boardA rfl rfl,
         h.2.2.2.2.2 1 listA boardA rfl rfl rfl⟩

end Trello
